import Mathlib

/-!
Verification of the network endpoint discovery and reachability probing
subsystem of the node-escpos example repository.

The definitions below are shallow embeddings of the JavaScript functions
`testNetworkConnectivity` (examples/status-robust.js), `testThermalPrinter`,
`pingRange`, `connectByMAC`, `connectByHostname`, `connectByIdentifier`,
`discoverNetworkDevices` (the ethernet discovery script) and
`connectWithFallback`, `connectByNetworkRange`
(examples/connect-by-ethernet.js).

Asynchronous socket code is embedded by making the settlement event of each
socket attempt explicit: a probe becomes a function from the event that
settles it (connect, timeout, or error) to the list of actions its handler
performs.  Loops that shell out or call the printer library are embedded with
the external collaborator as an oracle argument, and each loop additionally
returns the trace of the attempts it actually issued, in order, so that
short-circuiting behaviour is observable.  Definitions whose doc comment
starts with "Modelled from the spec" follow the specification's words and
exist only to compare the code's behaviour against the spec's demands.
-/

/-- A JavaScript network error as observed by a socket error handler: Node.js
errors expose a `code` (such as "ECONNREFUSED" or "ENOTFOUND") and a
human-readable `message`. -/
structure NetError where
  code : String
  message : String
  deriving DecidableEq, Repr

/-- The event that settles a single socket connection attempt: the connect
handler fires on success, the timeout handler fires when the armed socket
timeout elapses with neither success nor failure, and the error handler fires
on any transport error (refusal, resolution failure, or anything else). -/
inductive NetEvent where
  | connect
  | timeout
  | error (e : NetError)
  deriving DecidableEq, Repr

/-- An observable action performed by a probe's socket handlers: writing a
log line, destroying the socket, resolving the probe promise with a boolean,
or rejecting the promise. -/
inductive SocketAction where
  | log (msg : String)
  | destroy
  | resolve (b : Bool)
  | reject (msg : String)
  deriving DecidableEq, Repr

/-- Embedding of `testNetworkConnectivity(host, port, timeout)` from
examples/status-robust.js (lines 6-32): the actions its socket handlers
perform for each settling event.  The socket timer is armed with the
configured `timeout` milliseconds via `socket.setTimeout(timeout)`, so the
`NetEvent.timeout` case is the attempt that neither succeeded nor failed
within `timeout`. -/
def testNetworkConnectivity (host : String) (port : Nat) (timeout : Nat) :
    NetEvent → List SocketAction
  | NetEvent.connect =>
      [SocketAction.log ("✅ Network connection to " ++ host ++ ":" ++ toString port ++ " successful"),
       SocketAction.destroy, SocketAction.resolve true]
  | NetEvent.timeout =>
      [SocketAction.log ("⏰ Network connection to " ++ host ++ ":" ++ toString port ++ " timed out"),
       SocketAction.destroy, SocketAction.resolve false]
  | NetEvent.error e =>
      [SocketAction.log ("❌ Network connection to " ++ host ++ ":" ++ toString port ++ " failed: " ++ e.message),
       SocketAction.destroy, SocketAction.resolve false]

/-- Embedding of `testThermalPrinter(ip, port = 9100)` from the ethernet
discovery script (lines 56-81): the actions its socket handlers perform for
each settling event.  Its socket timer is fixed at 3000 ms. -/
def testThermalPrinter (ip : String) (port : Nat) : NetEvent → List SocketAction
  | NetEvent.connect =>
      [SocketAction.log ("✅ Found thermal printer at " ++ ip ++ ":" ++ toString port),
       SocketAction.destroy, SocketAction.resolve true]
  | NetEvent.timeout => [SocketAction.destroy, SocketAction.resolve false]
  | NetEvent.error _ => [SocketAction.destroy, SocketAction.resolve false]

/-- The value a probe promise resolves with, extracted from the handler's
action list. -/
def resolvedValue (acts : List SocketAction) : Option Bool :=
  acts.findSome? fun a =>
    match a with
    | SocketAction.resolve b => some b
    | _ => none

/-- Whether an action is a promise resolution. -/
def isResolveAction (a : SocketAction) : Bool :=
  match a with
  | SocketAction.resolve _ => true
  | _ => false

/-- Handler actions with log lines removed, leaving the socket-lifecycle and
promise-settlement actions in order. -/
def nonLogActions (acts : List SocketAction) : List SocketAction :=
  acts.filter fun a =>
    match a with
    | SocketAction.log _ => false
    | _ => true

/-- Modelled from the spec: the five-way `ProbeResult.outcome` enumeration of
section 3 (`Reachable`, `Refused`, `TimedOut`, `Unresolved`, `Error` with a
detail string), which is absent from the source code and is used only to
compare the code's classification against the spec's. -/
inductive Outcome where
  | Reachable
  | Refused
  | TimedOut
  | Unresolved
  | Error (detail : String)
  deriving DecidableEq, Repr

/-- Modelled from the spec: the outcome section 4.1 assigns to each settling
event — `Reachable` on connect, `TimedOut` on timeout, `Refused` on OS-level
connection refusal, `Unresolved` on host resolution failure, and `Error`
preserving the message on any other transport error. -/
def specProbeOutcome : NetEvent → Outcome
  | NetEvent.connect => Outcome.Reachable
  | NetEvent.timeout => Outcome.TimedOut
  | NetEvent.error e =>
      if e.code = "ECONNREFUSED" then Outcome.Refused
      else if e.code = "ENOTFOUND" then Outcome.Unresolved
      else Outcome.Error e.message

/-- Outcome of one `await printer.isPrinterConnected()` attempt inside a
`try` block: it either returns a boolean or throws with a message. -/
inductive ConnAttempt where
  | ok (b : Bool)
  | threw (msg : String)
  deriving DecidableEq, Repr

/-- One entry of the fallback list in `connectWithFallback`
(examples/connect-by-ethernet.js, lines 130-146): a human-readable label, the
printer interface string naming the endpoint, and the timeout used for the
attempt. -/
structure ConnMethod where
  name : String
  interface : String
  timeout : Nat
  deriving DecidableEq, Repr

/-- Embedding of the loop of `connectWithFallback`
(examples/connect-by-ethernet.js, lines 148-180).  `net` gives the outcome of
`isPrinterConnected` on an interface string.  The loop returns at the first
entry whose attempt yields `true`; a `false` return and a thrown error both
fall through to the next entry.  The first component is the overall result:
the successful entry, or, when the loop falls through every entry, the
failure path carrying each attempted entry together with its terminal
outcome.  The second component is the trace of entries actually attempted, in
order. -/
def connectWithFallback (net : String → ConnAttempt) :
    List ConnMethod →
      Except (List (ConnMethod × ConnAttempt)) ConnMethod × List ConnMethod
  | [] => (Except.error [], [])
  | m :: rest =>
    if net m.interface = ConnAttempt.ok true then
      (Except.ok m, [m])
    else
      ((connectWithFallback net rest).1.mapError fun atts => (m, net m.interface) :: atts,
       m :: (connectWithFallback net rest).2)

/-- Embedding of the loop of `connectByNetworkRange`
(examples/connect-by-ethernet.js, lines 89-120).  Each candidate IP is probed
through a printer built on the interface string `tcp://ip:9100`; the loop
returns at the first candidate whose attempt yields `true`, and a `false`
return and a thrown error both continue to the next candidate.  Returns the
found IP, if any, and the trace of candidates actually probed, in order. -/
def connectByNetworkRange (net : String → ConnAttempt) :
    List String → Option String × List String
  | [] => (none, [])
  | ip :: rest =>
    if net ("tcp://" ++ ip ++ ":9100") = ConnAttempt.ok true then
      (some ip, [ip])
    else
      ((connectByNetworkRange net rest).1, ip :: (connectByNetworkRange net rest).2)

/-- The fallback plan hard-coded in `connectWithFallback`
(examples/connect-by-ethernet.js, lines 130-146), used as a concrete
evaluation input. -/
def fallbackDemoPlan : List ConnMethod :=
  [⟨"Primary IP", "tcp://192.168.1.87:9100", 10000⟩,
   ⟨"Alternative IP", "tcp://192.168.1.100:9100", 10000⟩,
   ⟨"Hostname", "tcp://thermal-printer.local:9100", 10000⟩]

/-- A concrete network oracle on which only the second fallback entry is
reachable. -/
def fallbackDemoNet (s : String) : ConnAttempt :=
  if s = "tcp://192.168.1.100:9100" then ConnAttempt.ok true
  else ConnAttempt.threw "connect ECONNREFUSED"

/-- A concrete network oracle on which no fallback entry is reachable: the
first entry's printer answers that it is not connected and every other
attempt throws. -/
def exhaustDemoNet (s : String) : ConnAttempt :=
  if s = "tcp://192.168.1.87:9100" then ConnAttempt.ok false
  else ConnAttempt.threw "connect EHOSTUNREACH"

/-- The candidate list hard-coded in `connectByNetworkRange`
(examples/connect-by-ethernet.js, lines 81-87), used as a concrete evaluation
input. -/
def scanDemoIPs : List String :=
  ["192.168.1.87", "192.168.1.100", "192.168.1.200", "192.168.0.100", "10.0.0.100"]

/-- A concrete network oracle on which only the third scan candidate is
reachable. -/
def scanDemoNet (s : String) : ConnAttempt :=
  if s = "tcp://192.168.1.200:9100" then ConnAttempt.ok true
  else ConnAttempt.threw "connect ECONNREFUSED"

/-- The loop body of `pingRange` from the ethernet discovery script (lines
37-53), iterated a fixed number of times: at counter value `i` the loop runs
the shell command `ping -c 1 -W 1 baseIP.i` through the `exec` collaborator,
keeps `baseIP.i` when the command succeeds, and continues with `i + 1`.  The
first component is the list of reachable IPs, the second the trace of probe
commands actually executed, in order. -/
def pingRangeGo (exec : String → Bool) (baseIP : String) : Nat → Nat → List String × List String
  | 0, _ => ([], [])
  | Nat.succ n, i =>
      (if exec ("ping -c 1 -W 1 " ++ (baseIP ++ "." ++ toString i))
         then (baseIP ++ "." ++ toString i) :: (pingRangeGo exec baseIP n (i + 1)).1
         else (pingRangeGo exec baseIP n (i + 1)).1,
       ("ping -c 1 -W 1 " ++ (baseIP ++ "." ++ toString i)) :: (pingRangeGo exec baseIP n (i + 1)).2)

/-- Embedding of `pingRange(baseIP, start, end)` from the ethernet discovery
script (lines 37-53): the loop `for (let i = start; i <= end; i++)` performs
exactly `end + 1 - start` iterations (and none when `start > end`), starting
at `start`. -/
def pingRange (exec : String → Bool) (baseIP : String) (start end_ : Nat) :
    List String × List String :=
  pingRangeGo exec baseIP (end_ + 1 - start) start

/-- The ascending last-octet expansion of a range sweep, as the claim states
it: one probe command per integer from `start` to `end_`, with the integer
substituted as the last octet of the subnet prefix, in ascending numeric
order. -/
def ascendingSweepCommands (baseIP : String) (start end_ : Nat) : List String :=
  (List.range' start (end_ + 1 - start)).map
    fun i => "ping -c 1 -W 1 " ++ (baseIP ++ "." ++ toString i)

/-- Whether the second character list starts with the first. -/
def listStartsWith : List Char → List Char → Bool
  | [], _ => true
  | _ :: _, [] => false
  | p :: ps, c :: cs => p == c && listStartsWith ps cs

/-- Whether the first character list occurs contiguously anywhere inside the
second. -/
def listContainsSub (pat : List Char) : List Char → Bool
  | [] => listStartsWith pat []
  | c :: cs => listStartsWith pat (c :: cs) || listContainsSub pat cs

/-- One parsed line of `arp -a` output: the regular expression in
`connectByMAC` extracts an IP address and a hardware address from each
matching line of the neighbor table. -/
structure ArpEntry where
  ip : String
  mac : String
  deriving DecidableEq, Repr

/-- Embedding of JavaScript's `String.prototype.toLowerCase` for the ASCII
alphabet of hardware addresses, mapping each character to lower case. -/
def jsToLowerCase (s : String) : String :=
  String.mk (s.data.map Char.toLower)

/-- Embedding of `connectByMAC(macAddress)` from the ethernet discovery
script (lines 84-101): scan the neighbor table in order for the first entry
whose hardware address equals the requested one under case-insensitive
comparison and return its IP; when no entry matches, the thrown
`MAC address not found` error is rewrapped into the returned failure. -/
def connectByMAC (table : List ArpEntry) (macAddress : String) : Except String String :=
  match table.find? (fun e => jsToLowerCase e.mac == jsToLowerCase macAddress) with
  | some e => Except.ok e.ip
  | none => Except.error "Could not resolve MAC address: MAC address not found in ARP table"

/-- Embedding of `connectByHostname(hostname)` from the ethernet discovery
script (lines 104-115), with the `nslookup` collaborator abstracted as a
lookup oracle yielding the first resolved address, if any. -/
def connectByHostname (dns : String → Option String) (hostname : String) :
    Except String String :=
  match dns hostname with
  | some ip => Except.ok ip
  | none => Except.error "Could not resolve hostname: Hostname not found"

/-- Embedding of the identifier-resolution switch of
`connectByIdentifier(identifier, type)` from the ethernet discovery script
(lines 224-253): type `mac` resolves through the neighbor table, `hostname`
through the name lookup, `ip` returns the identifier unchanged with no
validation of any kind, and any other type is rejected. -/
def resolveIdentifier (table : List ArpEntry) (dns : String → Option String)
    (idType : String) (identifier : String) : Except String String :=
  match idType with
  | "mac" => connectByMAC table identifier
  | "hostname" => connectByHostname dns identifier
  | "ip" => Except.ok identifier
  | _ => Except.error ("Unknown identifier type: " ++ idType)

/-- The fields of a string cut at every dot character. -/
def dotFields : List Char → List (List Char)
  | [] => [[]]
  | c :: rest =>
    match dotFields rest with
    | [] => []
    | f :: fs => if c = '.' then [] :: f :: fs else (c :: f) :: fs

/-- The numeric value of a decimal digit run. -/
def digitsVal (p : List Char) : Nat :=
  p.foldl (fun n c => n * 10 + (c.toNat - 48)) 0

/-- Modelled from the spec: section 4.2's "well-formed IPv4 literal", which
the source code never checks — four dot-separated, non-empty, all-digit
fields, each of numeric value at most 255.  Used only to compare the code's
`ip` resolution against the validation the spec demands. -/
def isWellFormedIPv4 (s : String) : Bool :=
  let parts := dotFields s.toList
  parts.length == 4 && parts.all fun p =>
    !p.isEmpty && p.all Char.isDigit && Nat.ble (digitsVal p) 255

/-- A device parsed from one line of `arp-scan --localnet` output. -/
structure Device where
  ip : String
  mac : String
  vendor : String
  deriving DecidableEq, Repr

/-- Whether a string has the shape the `discoverNetworkDevices` regular
expression demands of its first field: four non-empty digit runs separated by
dots. -/
def isDottedDigits (s : String) : Bool :=
  let parts := dotFields s.toList
  parts.length == 4 && parts.all fun p => !p.isEmpty && p.all Char.isDigit

/-- Whether a string is non-empty and consists only of hexadecimal digits and
colons, the character class of the regular expression's hardware-address
field. -/
def isMacChars (s : String) : Bool :=
  !s.isEmpty && s.data.all fun c =>
    c.isDigit || ("abcdefABCDEF:".contains c)

/-- Parse of one `arp-scan` output line following the regular expression in
`discoverNetworkDevices`: an IP-shaped field, a hardware-address field and a
non-empty trailing vendor field, separated by whitespace. -/
def parseArpScanLine (line : String) : Option Device :=
  match (line.split fun c => c == ' ' || c == '\t').filter (fun p => !p.isEmpty) with
  | ipStr :: macStr :: v :: vs =>
      if isDottedDigits ipStr && isMacChars macStr then
        some { ip := ipStr, mac := macStr, vendor := String.intercalate " " (v :: vs) }
      else none
  | _ => none

/-- Embedding of `discoverNetworkDevices()` from the ethernet discovery
script (lines 8-34).  Its single external collaborator is the
`arp-scan --localnet` invocation, embedded as its outcome: either the
captured stdout or a failure.  On success the stdout lines are parsed into
devices; on any failure of the collaborator the `catch` branch returns the
empty device list instead of propagating the error. -/
def discoverNetworkDevices (execResult : Except String String) : List Device :=
  match execResult with
  | Except.ok stdout => (stdout.splitOn "\n").filterMap parseArpScanLine
  | Except.error _ => []

/-- C1 counterexample: the probe of the ethernet discovery script resolves
with the same value `false` on a timeout and on an OS-level connection
refusal, although the spec's five-way classification assigns these two events
the distinct outcomes `TimedOut` and `Refused`.  The probe therefore does not
classify its outcome into the five enumerated `ProbeResult` outcomes, and the
refusal's underlying message is not preserved anywhere in the result. -/
theorem testThermalPrinter_timeout_refused_indistinct :
    resolvedValue (testThermalPrinter "192.168.1.87" 9100 NetEvent.timeout) =
      resolvedValue (testThermalPrinter "192.168.1.87" 9100
        (NetEvent.error ⟨"ECONNREFUSED", "connect ECONNREFUSED 192.168.1.87:9100"⟩)) ∧
    specProbeOutcome NetEvent.timeout ≠
      specProbeOutcome (NetEvent.error ⟨"ECONNREFUSED", "connect ECONNREFUSED 192.168.1.87:9100"⟩) := by
  exact ⟨rfl, by decide⟩

/-- C1 (amended): for every settling event, each probe resolves exactly once,
with `true` exactly on the connect event and `false` on timeout and on every
transport error; the implemented classification is therefore two-way
(reachable or not) rather than the spec's five-way outcome, and no error
detail is preserved in the result. -/
theorem probe_two_way_classification (host : String) (port timeout : Nat) (e : NetEvent) :
    resolvedValue (testThermalPrinter host port e) =
      some (match e with | NetEvent.connect => true | _ => false) ∧
    resolvedValue (testNetworkConnectivity host port timeout e) =
      some (match e with | NetEvent.connect => true | _ => false) ∧
    ((testThermalPrinter host port e).filter isResolveAction).length = 1 ∧
    ((testNetworkConnectivity host port timeout e).filter isResolveAction).length = 1 := by
  cases e <;> exact ⟨rfl, rfl, rfl, rfl⟩

/-- C5: every probe settles with exactly one result on every settling event —
including the timeout event fired by the socket timer armed with the
configured timeout — it settles by resolving (never by rejecting or
throwing), and the socket is destroyed on every exit path before the result
is delivered. -/
theorem probe_settles_once_and_destroys (host : String) (port timeout : Nat) (e : NetEvent) :
    (∃ b, nonLogActions (testNetworkConnectivity host port timeout e) =
      [SocketAction.destroy, SocketAction.resolve b]) ∧
    (∃ b, nonLogActions (testThermalPrinter host port e) =
      [SocketAction.destroy, SocketAction.resolve b]) := by
  cases e <;> exact ⟨⟨_, rfl⟩, ⟨_, rfl⟩⟩

/-- C2: `connectWithFallback` evaluates plan entries strictly in list order
and stops at the first entry whose probe yields a connected result: when
entry `k` succeeds and every earlier entry does not, the result is exactly
that entry (its label and endpoint), and the trace of attempted entries is
exactly the plan's first `k + 1` entries, so no entry after the successful
one is ever evaluated or probed. -/
theorem connectWithFallback_stops_at_first_success (net : String → ConnAttempt)
    (plan : List ConnMethod) (k : Nat) (hk : k < plan.length)
    (hsucc : net ((plan.get ⟨k, hk⟩).interface) = ConnAttempt.ok true)
    (hbefore : ∀ m ∈ plan.take k, net m.interface ≠ ConnAttempt.ok true) :
    connectWithFallback net plan = (Except.ok (plan.get ⟨k, hk⟩), plan.take (k + 1)) := by
  induction plan generalizing k with
  | nil => exact absurd hk (Nat.not_lt_zero k)
  | cons m rest ih =>
    cases k with
    | zero =>
      have h0 : net m.interface = ConnAttempt.ok true := hsucc
      simp [connectWithFallback, h0, List.take]
    | succ j =>
      have hm : net m.interface ≠ ConnAttempt.ok true := hbefore m (by simp)
      have hk' : j < rest.length := Nat.lt_of_succ_lt_succ hk
      have hs' : net ((rest.get ⟨j, hk'⟩).interface) = ConnAttempt.ok true := hsucc
      have hb' : ∀ x ∈ rest.take j, net x.interface ≠ ConnAttempt.ok true := by
        intro x hx
        exact hbefore x (by simp [hx])
      have hrec := ih j hk' hs' hb'
      simp [connectWithFallback, if_neg hm, hrec, Except.mapError, List.take]

/-- C2 witness: on the hard-coded plan with an oracle on which only the
second entry is reachable, the fallback returns the second entry and attempts
only the first two entries. -/
theorem connectWithFallback_stops_witness :
    fallbackDemoNet ((fallbackDemoPlan.get ⟨1, by decide⟩).interface) = ConnAttempt.ok true ∧
    connectWithFallback fallbackDemoNet fallbackDemoPlan =
      (Except.ok (fallbackDemoPlan.get ⟨1, by decide⟩), fallbackDemoPlan.take 2) :=
  ⟨by decide,
   connectWithFallback_stops_at_first_success fallbackDemoNet fallbackDemoPlan 1
     (by decide) (by decide) (by decide)⟩

/-- C3: when no plan entry's probe yields a connected result, the fallback
loop falls through after attempting every entry, and the resulting failure
carries one attempted-entry record — the entry with its terminal outcome —
per plan entry, hence exactly as many records as there are plan entries. -/
theorem connectWithFallback_exhausted (net : String → ConnAttempt)
    (plan : List ConnMethod)
    (hall : ∀ m ∈ plan, net m.interface ≠ ConnAttempt.ok true) :
    (connectWithFallback net plan).1 =
      Except.error (plan.map fun m => (m, net m.interface)) ∧
    (plan.map fun m => (m, net m.interface)).length = plan.length := by
  refine ⟨?_, by simp⟩
  induction plan with
  | nil => rfl
  | cons m rest ih =>
    have hm : net m.interface ≠ ConnAttempt.ok true := hall m (by simp)
    have hrest : ∀ x ∈ rest, net x.interface ≠ ConnAttempt.ok true := by
      intro x hx
      exact hall x (by simp [hx])
    simp [connectWithFallback, if_neg hm, ih hrest, Except.mapError]

/-- C3 witness: on the hard-coded plan with an oracle on which no entry is
reachable, the fallback fails carrying one record per plan entry — here all
three entries, with their terminal outcomes. -/
theorem connectWithFallback_exhausted_witness :
    (connectWithFallback exhaustDemoNet fallbackDemoPlan).1 =
      Except.error
        [(⟨"Primary IP", "tcp://192.168.1.87:9100", 10000⟩, ConnAttempt.ok false),
         (⟨"Alternative IP", "tcp://192.168.1.100:9100", 10000⟩, ConnAttempt.threw "connect EHOSTUNREACH"),
         (⟨"Hostname", "tcp://thermal-printer.local:9100", 10000⟩, ConnAttempt.threw "connect EHOSTUNREACH")] :=
  ((connectWithFallback_exhausted exhaustDemoNet fallbackDemoPlan (by decide)).1).trans
    (congrArg Except.error (by decide))

/-- C8: `connectByNetworkRange` stops issuing probes at the first reachable
candidate: when candidate `k` is reachable and every earlier candidate is
not, it returns that candidate's IP and its probe trace is exactly the first
`k + 1` candidates, so no candidate after the reachable one is probed. -/
theorem connectByNetworkRange_stops_at_first_reachable (net : String → ConnAttempt)
    (ips : List String) (k : Nat) (hk : k < ips.length)
    (hsucc : net ("tcp://" ++ ips.get ⟨k, hk⟩ ++ ":9100") = ConnAttempt.ok true)
    (hbefore : ∀ ip ∈ ips.take k, net ("tcp://" ++ ip ++ ":9100") ≠ ConnAttempt.ok true) :
    connectByNetworkRange net ips = (some (ips.get ⟨k, hk⟩), ips.take (k + 1)) := by
  induction ips generalizing k with
  | nil => exact absurd hk (Nat.not_lt_zero k)
  | cons ip rest ih =>
    cases k with
    | zero =>
      have h0 : net ("tcp://" ++ ip ++ ":9100") = ConnAttempt.ok true := hsucc
      simp [connectByNetworkRange, h0, List.take]
    | succ j =>
      have hm : net ("tcp://" ++ ip ++ ":9100") ≠ ConnAttempt.ok true := hbefore ip (by simp)
      have hk' : j < rest.length := Nat.lt_of_succ_lt_succ hk
      have hs' : net ("tcp://" ++ rest.get ⟨j, hk'⟩ ++ ":9100") = ConnAttempt.ok true := hsucc
      have hb' : ∀ x ∈ rest.take j, net ("tcp://" ++ x ++ ":9100") ≠ ConnAttempt.ok true := by
        intro x hx
        exact hbefore x (by simp [hx])
      have hrec := ih j hk' hs' hb'
      simp [connectByNetworkRange, if_neg hm, hrec, List.take]

/-- C8 witness: on the hard-coded candidate list with an oracle on which only
the third candidate is reachable, the scan returns that candidate and probes
only the first three candidates. -/
theorem connectByNetworkRange_stops_witness :
    scanDemoNet ("tcp://" ++ scanDemoIPs.get ⟨2, by decide⟩ ++ ":9100") = ConnAttempt.ok true ∧
    connectByNetworkRange scanDemoNet scanDemoIPs =
      (some (scanDemoIPs.get ⟨2, by decide⟩), scanDemoIPs.take 3) :=
  ⟨by decide,
   connectByNetworkRange_stops_at_first_reachable scanDemoNet scanDemoIPs 2
     (by decide) (by decide) (by decide)⟩

/-- Helper: the trace of probe commands executed by the `pingRange` loop is
the ascending enumeration of its counter values, each substituted as the last
octet. -/
theorem pingRangeGo_trace (exec : String → Bool) (baseIP : String) :
    ∀ (n i : Nat), (pingRangeGo exec baseIP n i).2 =
      (List.range' i n).map fun j => "ping -c 1 -W 1 " ++ (baseIP ++ "." ++ toString j) := by
  intro n
  induction n with
  | zero => intro i; rfl
  | succ n ih => intro i; simp [pingRangeGo, List.range', ih]

/-- C6 (amended): for `startHost ≤ endHost`, the range sweep probes exactly
the hosts obtained by substituting each integer from `startHost` to `endHost`
as the last octet of the subnet prefix, in ascending numeric order — one
host-level ping command per host, with no port taking part in the probe. -/
theorem pingRange_ascending_last_octet (exec : String → Bool) (baseIP : String)
    (start end_ : Nat) (h : start ≤ end_) :
    (pingRange exec baseIP start end_).2 = ascendingSweepCommands baseIP start end_ := by
  unfold pingRange ascendingSweepCommands
  exact pingRangeGo_trace exec baseIP (end_ + 1 - start) start

/-- C6 witness: the sweep of 192.168.1 from 10 to 12 probes exactly
192.168.1.10, 192.168.1.11, 192.168.1.12 in that order. -/
theorem pingRange_ascending_witness :
    10 ≤ 12 ∧ (pingRange (fun _ => true) "192.168.1" 10 12).2 =
      ["ping -c 1 -W 1 192.168.1.10", "ping -c 1 -W 1 192.168.1.11",
       "ping -c 1 -W 1 192.168.1.12"] :=
  ⟨by decide,
   (pingRange_ascending_last_octet (fun _ => true) "192.168.1" 10 12 (by decide)).trans
     (by decide)⟩

/-- C6 counterexample: the probes issued by the sweep of 192.168.1 from 10 to
12 are ICMP ping commands of the bare hosts, and none of them mentions the
port 9100 anywhere, so the sweep does not probe each endpoint "on the given
port" as the claim states — `pingRange` has no port at all. -/
theorem pingRange_probe_commands_carry_no_port :
    (pingRange (fun _ => true) "192.168.1" 10 12).2 =
      ["ping -c 1 -W 1 192.168.1.10", "ping -c 1 -W 1 192.168.1.11",
       "ping -c 1 -W 1 192.168.1.12"] ∧
    ((pingRange (fun _ => true) "192.168.1" 10 12).2.all
      fun c => !listContainsSub ("9100".toList) c.toList) = true := by
  exact ⟨by decide, by decide⟩

/-- C9: when `startHost` is strictly greater than `endHost`, the sweep loop
performs zero iterations: no probe command is executed, the reachable list is
empty, and the function returns normally rather than failing or wrapping
around. -/
theorem pingRange_empty_when_start_gt_end (exec : String → Bool) (baseIP : String)
    (start end_ : Nat) (h : end_ < start) :
    pingRange exec baseIP start end_ = ([], []) := by
  unfold pingRange
  have h0 : end_ + 1 - start = 0 := by omega
  rw [h0]
  rfl

/-- C9 witness: sweeping from 13 down to 10 issues no probes and returns the
empty result list. -/
theorem pingRange_empty_witness :
    10 < 13 ∧ pingRange (fun _ => true) "192.168.1" 13 10 = ([], []) :=
  ⟨by decide, pingRange_empty_when_start_gt_end (fun _ => true) "192.168.1" 13 10 (by decide)⟩

/-- C7: for every neighbor-table content, a successful hardware-address
resolution returns the IP of a table entry whose hardware address equals the
requested one under case-insensitive comparison; whenever some entry matches
case-insensitively the resolution does succeed, returning the IP of a
matching entry; and when no entry matches the resolution fails with the
MAC-not-found error. -/
theorem connectByMAC_case_insensitive_lookup (table : List ArpEntry) (macAddress : String) :
    (∀ ip, connectByMAC table macAddress = Except.ok ip →
      ∃ e ∈ table, jsToLowerCase e.mac = jsToLowerCase macAddress ∧ e.ip = ip) ∧
    ((∃ e ∈ table, jsToLowerCase e.mac = jsToLowerCase macAddress) →
      ∃ ip, connectByMAC table macAddress = Except.ok ip ∧
        ∃ e ∈ table, jsToLowerCase e.mac = jsToLowerCase macAddress ∧ e.ip = ip) ∧
    ((∀ e ∈ table, jsToLowerCase e.mac ≠ jsToLowerCase macAddress) →
      connectByMAC table macAddress =
        Except.error "Could not resolve MAC address: MAC address not found in ARP table") := by
  refine ⟨?_, ?_, ?_⟩
  · intro ip hok
    unfold connectByMAC at hok
    cases hfind : table.find? (fun e => jsToLowerCase e.mac == jsToLowerCase macAddress) with
    | none => rw [hfind] at hok; exact Except.noConfusion hok
    | some e =>
      rw [hfind] at hok
      have hmem : e ∈ table := List.mem_of_find?_eq_some hfind
      have hpred := List.find?_some hfind
      cases hok
      exact ⟨e, hmem, eq_of_beq hpred, rfl⟩
  · intro hmatch
    obtain ⟨e, he, hm⟩ := hmatch
    unfold connectByMAC
    cases hfind : table.find? (fun x => jsToLowerCase x.mac == jsToLowerCase macAddress) with
    | none =>
      exfalso
      have hnot := List.find?_eq_none.mp hfind e he
      exact hnot (beq_of_eq hm)
    | some w =>
      have hwmem : w ∈ table := List.mem_of_find?_eq_some hfind
      have hwpred := List.find?_some hfind
      exact ⟨w.ip, rfl, w, hwmem, eq_of_beq hwpred, rfl⟩
  · intro hnone
    unfold connectByMAC
    have hfind : table.find? (fun e => jsToLowerCase e.mac == jsToLowerCase macAddress) = none := by
      rw [List.find?_eq_none]
      intro e he hbeq
      exact hnone e he (eq_of_beq hbeq)
    rw [hfind]

/-- C7 witness: in a table holding one entry with an upper-case hardware
address, looking up an unknown hardware address fails with the MAC-not-found
error, and looking up the entry's address in lower case succeeds with its
IP. -/
theorem connectByMAC_lookup_witness :
    connectByMAC [⟨"192.168.1.42", "AA:BB:CC:00:11:22"⟩] "ff:ff:ff:ff:ff:ff" =
      Except.error "Could not resolve MAC address: MAC address not found in ARP table" ∧
    connectByMAC [⟨"192.168.1.42", "AA:BB:CC:00:11:22"⟩] "aa:bb:cc:00:11:22" =
      Except.ok "192.168.1.42" :=
  ⟨(connectByMAC_case_insensitive_lookup [⟨"192.168.1.42", "AA:BB:CC:00:11:22"⟩]
      "ff:ff:ff:ff:ff:ff").2.2 (by decide),
   rfl⟩

/-- C4 counterexample: resolving an `ip` identifier performs no validation at
all — the malformed literal "10.0.0.999" is returned unchanged as a success
instead of failing with `InvalidAddress`, even though it is not a well-formed
IPv4 literal in the spec's sense. -/
theorem resolveIdentifier_no_ip_validation :
    resolveIdentifier [] (fun _ => none) "ip" "10.0.0.999" = Except.ok "10.0.0.999" ∧
    isWellFormedIPv4 "10.0.0.999" = false :=
  ⟨rfl, by decide⟩

/-- C4 (amended): resolving an `ip` identifier returns the value unchanged
for every string, whether or not it is a well-formed IPv4 literal — the
round-trip identity holds for well-formed literals such as "10.0.0.5", but
malformed literals are returned unchanged as well rather than rejected,
because no validation exists. -/
theorem resolveIdentifier_ip_round_trip (table : List ArpEntry)
    (dns : String → Option String) (s : String) :
    resolveIdentifier table dns "ip" s = Except.ok s ∧
    isWellFormedIPv4 "10.0.0.5" = true :=
  ⟨rfl, by decide⟩

/-- C10: whenever the `arp-scan` collaborator fails — for any failure
whatsoever — device discovery takes the `catch` branch and returns the empty
device list as an ordinary value, propagating no error to its caller. -/
theorem discoverNetworkDevices_failure_empty (msg : String) :
    discoverNetworkDevices (Except.error msg) = [] := rfl
